import Mathlib

/-!
Verification of the Kenny V4 conversational gateway core against its design
specification.  The two embedded modules are:

* `services/kenny_pipeline.py` — the Open WebUI `Pipe` class: per-user session
  cache, the single outbound call to the n8n router workflow
  (`call_n8n_router`), and the SSE streaming response (`pipe`).
* `services/kenny_session_manager.py` — `KennySessionManager`: the tiered
  session store (`get_or_create_session`), turn appending (`add_turn`) and the
  Redis write-through (`_cache_session`).

Machine floats of the source (timestamps, confidence scores) are modelled as
rationals; the network, Redis and Supabase are modelled as explicit oracle
parameters so every function is a pure, executable Lean definition.
-/

/-- Last `n` elements of a list, in order (Python `l[-n:]`, for `n > 0`). -/
def lastN (n : Nat) (l : List α) : List α := l.drop (l.length - n)

/-- `hay` contains `needle` as a contiguous substring. -/
def strIncludes (hay needle : String) : Prop :=
  ∃ pre post : List Char, hay.data = pre ++ needle.data ++ post

/-- Whitespace recognised by Python `str.split()` (ASCII part). -/
def pyIsSpace (c : Char) : Bool :=
  c == ' ' || c == '\t' || c == '\n' || c == '\r' || c == '\x0b' || c == '\x0c'

/-- Helper for `pySplit`: `acc` holds the current word reversed. -/
def pySplitAux : List Char → List Char → List String
  | [], acc => if acc.isEmpty then [] else [String.mk acc.reverse]
  | c :: cs, acc =>
    if pyIsSpace c then
      (if acc.isEmpty then [] else [String.mk acc.reverse]) ++ pySplitAux cs []
    else
      pySplitAux cs (c :: acc)

/-- Python `str.split()` with no argument: split on runs of whitespace,
dropping empty fragments. -/
def pySplit (s : String) : List String := pySplitAux s.data []

/-- Lower-case hex digit, as produced by Python `json.dumps` escapes. -/
def hexDigitChar (n : Nat) : Char :=
  if n < 10 then Char.ofNat (48 + n) else Char.ofNat (87 + n)

/-- Four-digit hex rendering used in `\uXXXX` escapes. -/
def hex4 (n : Nat) : String :=
  String.mk [hexDigitChar (n / 4096 % 16), hexDigitChar (n / 256 % 16),
             hexDigitChar (n / 16 % 16), hexDigitChar (n % 16)]

/-- One character of Python `json.dumps` output (default `ensure_ascii=True`):
everything outside printable ASCII is `\u`-escaped, astral characters as a
surrogate pair. -/
def jsonEscapeChar (c : Char) : String :=
  if c = '"' then "\\\""
  else if c = '\\' then "\\\\"
  else if c = '\n' then "\\n"
  else if c = '\r' then "\\r"
  else if c = '\t' then "\\t"
  else if c.toNat = 8 then "\\b"
  else if c.toNat = 12 then "\\f"
  else if c.toNat < 32 || c.toNat > 126 then
    if c.toNat ≤ 65535 then "\\u" ++ hex4 c.toNat
    else "\\u" ++ hex4 (55296 + (c.toNat - 65536) / 1024)
         ++ "\\u" ++ hex4 (56320 + (c.toNat - 65536) % 1024)
  else String.singleton c

/-- Python `json.dumps` of a string value. -/
def jsonEncodeString (s : String) : String :=
  "\"" ++ String.join (s.data.map jsonEscapeChar) ++ "\""

/-- One event of the streaming response protocol, before wire encoding.
`content` is an incremental delta chunk, `finish` the terminal
`finish_reason: stop` marker, `done` the literal `[DONE]` sentinel and
`error` the error object emitted on gateway faults. -/
inductive SSEEvent where
  | content (text : String)
  | finish
  | done
  | error (msg : String)
deriving DecidableEq

/-- Wire encoding of one protocol event, exactly as yielded by
`Pipe.pipe` (`data: <json>\n\n`; the sentinel line is `data: [DONE]\n\n`). -/
def render : SSEEvent → String
  | .content t =>
    "data: \x7b\"choices\": [\x7b\"delta\": \x7b\"content\": "
      ++ jsonEncodeString t ++ "\x7d\x7d]\x7d\n\n"
  | .finish => "data: \x7b\"choices\": [\x7b\"finish_reason\": \"stop\"\x7d]\x7d\n\n"
  | .done => "data: [DONE]\n\n"
  | .error m => "data: \x7b\"error\": " ++ jsonEncodeString m ++ "\x7d\n\n"

/-- The texts of the content chunks of a stream, in order. -/
def contentTexts (es : List SSEEvent) : List String :=
  es.filterMap fun e =>
    match e with
    | .content t => some t
    | _ => none

/-- One entry of `session_cache[sid]["conversation_history"]`
(kenny_pipeline.py lines 88-94). -/
structure HistoryEntry where
  user_message : String
  kenny_response : String
  intent : String
  confidence : Rat
  timestamp : Rat
deriving DecidableEq

/-- One value of the `Pipe.session_cache` dict (kenny_pipeline.py lines 50-55). -/
structure SessionData where
  user_id : String
  created_at : Rat
  last_activity : Rat
  conversation_history : List HistoryEntry
deriving DecidableEq

/-- `Pipe.session_cache`: an insertion-ordered dict from session id to
session data, modelled as an association list. -/
abbrev Cache := List (String × SessionData)

/-- `Pipe.Valves` (kenny_pipeline.py lines 14-20), with the source defaults. -/
structure Valves where
  n8n_webhook_url : String := "http://host.docker.internal:5678/webhook/kenny-router"
  n8n_timeout : Nat := 30
  fallback_model : String := "qwen2.5:7b-instruct"
  debug_mode : Bool := true
  session_timeout : Rat := 3600
deriving DecidableEq

/-- The default `Valves()` configuration. -/
def defaultValves : Valves := {}

/-- The `__user__` dict: `id`, `email`, `name` keys, each possibly absent. -/
structure UserInfo where
  id : Option String
  email : Option String
  name : Option String
deriving DecidableEq

/-- One element of the inbound `body["messages"]` list. -/
structure ChatMessage where
  content : Option String
deriving DecidableEq

/-- The inbound request body: message list and user-identity record. -/
structure Body where
  messages : List ChatMessage
  user : UserInfo
deriving DecidableEq

/-- `messages[-1].get("content", "")` (kenny_pipeline.py lines 132-133). -/
def userMessageOf (body : Body) : String :=
  match body.messages.getLast? with
  | some m => m.content.getD ""
  | none => ""

/-- `Pipe.get_session_id` (kenny_pipeline.py lines 29-56): drop expired cache
entries, return the first remaining session owned by the user (refreshing its
last activity), else create a fresh one.  `now` is `time.time()` and
`freshId` the generated `uuid4` string. -/
def get_session_id (v : Valves) (cache : Cache) (user : UserInfo) (now : Rat)
    (freshId : String) : String × Cache :=
  let user_id := user.id.getD "anonymous"
  let cache1 := cache.filter fun p => !decide (now - p.2.last_activity > v.session_timeout)
  match cache1.find? fun p => p.2.user_id == user_id with
  | some p =>
    (p.1, cache1.map fun q =>
      if q.1 == p.1 then (q.1, { q.2 with last_activity := now }) else q)
  | none =>
    (freshId, cache1 ++ [(freshId,
      { user_id := user_id, created_at := now, last_activity := now,
        conversation_history := [] })])

/-- The JSON object parsed from a 200 response body: the three fields the
pipeline reads, plus whether a truthy `fallback` key is present (the body is
an arbitrary dict, so `result.get("fallback")` may be truthy even on
success). -/
structure JsonBody where
  response : Option String
  intent : Option String
  confidence : Option Rat
  fallbackTruthy : Bool := false
deriving DecidableEq

/-- Outcome of `response.json()` on a 200 response. -/
inductive BodyParse where
  | parsed (b : JsonBody)
  | malformed (detail : String)
deriving DecidableEq

/-- Oracle for the single `requests.post` call: deadline timeout
(`requests.exceptions.Timeout`), any other raised exception (connection
refused etc., with `str(e)`), or an HTTP response with its status code and
body-parse outcome. -/
inductive NetOutcome where
  | timeout
  | connError (detail : String)
  | httpResponse (status : Nat) (body : BodyParse)
deriving DecidableEq

/-- The dict returned by `Pipe.call_n8n_router`: either the parsed workflow
response, or one of the locally constructed fallback dicts
`\x7b"error": ..., "fallback": True\x7d`. -/
inductive RouterResult where
  | ok (body : JsonBody)
  | fallbackErr (error : String)
deriving DecidableEq

/-- `kenny_result.get("fallback")` truthiness (kenny_pipeline.py line 145). -/
def RouterResult.getFallback : RouterResult → Bool
  | .ok b => b.fallbackTruthy
  | .fallbackErr _ => true

/-- `kenny_result.get("response", d)` (kenny_pipeline.py line 157). -/
def RouterResult.getResponse (r : RouterResult) (d : String) : String :=
  match r with
  | .ok b => b.response.getD d
  | .fallbackErr _ => d

/-- `kenny_result.get("intent", "unknown")` (kenny_pipeline.py line 158). -/
def RouterResult.getIntent : RouterResult → String
  | .ok b => b.intent.getD "unknown"
  | .fallbackErr _ => "unknown"

/-- `kenny_result.get("confidence", 0.0)` (kenny_pipeline.py line 159). -/
def RouterResult.getConfidence : RouterResult → Rat
  | .ok b => b.confidence.getD 0
  | .fallbackErr _ => 0

/-- The outbound JSON payload of `call_n8n_router` (kenny_pipeline.py
lines 61-71). -/
structure Payload where
  message : String
  session_id : String
  user_id : String
  user_email : String
  user_name : String
  timestamp : Rat
  conversation_history : List HistoryEntry
deriving DecidableEq

/-- Payload construction: turn text, session id, caller identity with the
source defaults, wall-clock timestamp, and
`session_cache.get(session_id, \x7b\x7d).get("conversation_history", [])[-5:]`. -/
def build_payload (cache : Cache) (message session_id : String) (user : UserInfo)
    (now : Rat) : Payload :=
  { message := message
    session_id := session_id
    user_id := user.id.getD "anonymous"
    user_email := user.email.getD ""
    user_name := user.name.getD "User"
    timestamp := now
    conversation_history :=
      lastN 5 (((cache.lookup session_id).map SessionData.conversation_history).getD []) }

/-- The history entry appended on a successful call (kenny_pipeline.py
lines 88-94). -/
def newHistoryEntry (message : String) (b : JsonBody) (now : Rat) : HistoryEntry :=
  { user_message := message
    kenny_response := b.response.getD ""
    intent := b.intent.getD "unknown"
    confidence := b.confidence.getD 0
    timestamp := now }

/-- The history retention step of a successful call (kenny_pipeline.py
lines 96-99): keep only the last 10 exchanges. -/
def updatedHistory (hist : List HistoryEntry) : List HistoryEntry :=
  if hist.length > 10 then lastN 10 hist else hist

/-- `Pipe.call_n8n_router` (kenny_pipeline.py lines 58-111): build the
payload, issue the single `requests.post`, and classify the outcome.  On a
200 response with parseable body the session history gains the new exchange
(truncated to the last 10); a timeout, raised exception, non-200 status or
unparseable body yields a locally built fallback dict and leaves the cache
untouched.  Every branch returns a value: no exception escapes. -/
def call_n8n_router (v : Valves) (message session_id : String) (user : UserInfo)
    (cache : Cache) (now : Rat) (net : NetOutcome) : RouterResult × Cache :=
  let _payload := build_payload cache message session_id user now
  match net with
  | .timeout => (.fallbackErr "Kenny router timeout", cache)
  | .connError d => (.fallbackErr ("Kenny router error: " ++ d), cache)
  | .httpResponse status body =>
    if status == 200 then
      match body with
      | .parsed b =>
        let cache2 :=
          if (cache.lookup session_id).isSome then
            cache.map fun p =>
              if p.1 == session_id then
                (p.1,
                 { p.2 with conversation_history :=
                     updatedHistory (p.2.conversation_history ++ [newHistoryEntry message b now]) })
              else p
          else cache
        (.ok b, cache2)
      | .malformed d => (.fallbackErr ("Kenny router error: " ++ d), cache)
    else
      (.fallbackErr ("n8n router failed: " ++ toString status), cache)

/-- `call_n8n_router` against a whole trace of potential network attempts:
the source performs exactly one `requests.post`, so only the first element
of the trace is ever consumed. -/
def call_n8n_router_once (v : Valves) (message session_id : String) (user : UserInfo)
    (cache : Cache) (now : Rat) (net : Nat → NetOutcome) : RouterResult × Cache :=
  call_n8n_router v message session_id user cache now (net 0)

/-- Whether the network outcome takes one of the fallback-returning branches
of `call_n8n_router` (timeout, raised exception, non-200 status, or 200 with
unparseable body). -/
def relayFails : NetOutcome → Bool
  | .timeout => true
  | .connError _ => true
  | .httpResponse status body =>
    if status == 200 then
      match body with
      | .parsed _ => false
      | .malformed _ => true
    else true

/-- The `error` field of the fallback dict built for a failing outcome. -/
def relayErrMsg : NetOutcome → String
  | .timeout => "Kenny router timeout"
  | .connError d => "Kenny router error: " ++ d
  | .httpResponse status body =>
    if status == 200 then
      match body with
      | .parsed _ => ""
      | .malformed d => "Kenny router error: " ++ d
    else "n8n router failed: " ++ toString status

/-- The degraded-mode notice chunk text (kenny_pipeline.py line 147; the
source writes `\\n\\n` inside the literal, i.e. two literal backslash-n
pairs, not newlines). -/
def fallbackNotice : String := "⚠️ Kenny router unavailable, using fallback mode.\\n\\n"

/-- The locally synthesized fallback message (kenny_pipeline.py line 150):
restates the user message and says advanced features are unavailable. -/
def fallbackResponseText (user_message : String) : String :=
  "I received your message: \x27" ++ user_message ++
    "\x27, but Kenny\x27s advanced features are currently unavailable. Please check that all services are running."

/-- Fallback streaming (kenny_pipeline.py lines 152-153): every whitespace
word is yielded with a trailing space. -/
def fallbackChunks (s : String) : List String := (pySplit s).map fun w => w ++ " "

/-- Success streaming (kenny_pipeline.py lines 166-169): words get a trailing
space except the last. -/
def wordChunks (s : String) : List String :=
  let ws := pySplit s
  ws.enum.map fun p => p.2 ++ (if p.1 < ws.length - 1 then " " else "")

/-- Python `f"\x7bc:.1%\x7d"` on a rational confidence: the value times 100,
rounded to one decimal place (the source value is a machine float; on the
inputs used here the decimal is exact, so rounding mode is immaterial). -/
def formatPercent1 (c : Rat) : String :=
  (if round (c * 1000) < 0 then "-" else "")
    ++ toString ((round (c * 1000)).natAbs / 10) ++ "."
    ++ toString ((round (c * 1000)).natAbs % 10) ++ "%"

/-- The diagnostic chunk text (kenny_pipeline.py line 163; as with the
notice, the source `\\n\\n` is two literal backslash-n pairs). -/
def intentDiagnostic (intent : String) (confidence : Rat) : String :=
  "🎯 Intent: " ++ intent ++ " (" ++ formatPercent1 confidence ++ ")\\n\\n"

/-- The default shown when a successful body lacks `response`
(kenny_pipeline.py line 157). -/
def troubleDefault : String := "I\x27m having trouble processing your request."

/-- The event sequence produced from the router result (kenny_pipeline.py
lines 145-174): degraded-mode notice plus word-by-word local fallback when
`kenny_result.get("fallback")` is truthy, otherwise optional diagnostic chunk
plus word-by-word response; both branches end with the finish chunk and the
`[DONE]` sentinel. -/
def streamEvents (v : Valves) (user_message : String) (kenny_result : RouterResult) :
    List SSEEvent :=
  if kenny_result.getFallback then
    (SSEEvent.content fallbackNotice
        :: (fallbackChunks (fallbackResponseText user_message)).map SSEEvent.content)
      ++ [SSEEvent.finish, SSEEvent.done]
  else
    (if v.debug_mode && kenny_result.getIntent != "unknown" then
        [SSEEvent.content (intentDiagnostic kenny_result.getIntent kenny_result.getConfidence)]
      else [])
      ++ (wordChunks (kenny_result.getResponse troubleDefault)).map SSEEvent.content
      ++ [SSEEvent.finish, SSEEvent.done]

/-- `Pipe.pipe` (kenny_pipeline.py lines 123-174): an empty message list
yields a single error event and returns at once (no sentinel); otherwise the
session is resolved, the router called once, and the outcome streamed. -/
def pipe (v : Valves) (cache : Cache) (body : Body) (now : Rat) (freshId : String)
    (net : NetOutcome) : List SSEEvent × Cache :=
  if body.messages.isEmpty then
    ([SSEEvent.error "No messages provided"], cache)
  else
    let um := userMessageOf body
    let sc := get_session_id v cache body.user now freshId
    let rc := call_n8n_router v um sc.1 body.user sc.2 now net
    (streamEvents v um rc.1, rc.2)

/-- The `except` handler of `Pipe.pipe` (kenny_pipeline.py lines 176-180):
one error event, then the sentinel. -/
def pipe_exception (detail : String) : List SSEEvent :=
  [SSEEvent.error ("Pipeline error: " ++ detail), SSEEvent.done]

/-- One turn dict built by `KennySessionManager.add_turn`
(kenny_session_manager.py lines 96-103). -/
structure TurnData where
  user_message : String
  kenny_response : String
  intent_classified : String
  intent_confidence : Rat
  timestamp : Rat
  turn_number : Nat
deriving DecidableEq

/-- `ConversationContext` (kenny_session_manager.py lines 14-21). -/
structure ConversationContext where
  session_id : String
  user_id : String
  turns : List TurnData
  created_at : Rat
  last_activity : Rat
  metadata : List (String × String)
deriving DecidableEq

/-- The mutable state of a `KennySessionManager`: the process-local session
map (insertion-ordered dict), the configured idle timeout, and whether the
Redis connection was initialised. -/
structure SMState where
  sessions : List (String × ConversationContext)
  session_timeout : Rat := 3600
  redisConnected : Bool := true
deriving DecidableEq

/-- One `setex` write issued against Redis. -/
structure RedisWrite where
  key : String
  ttl : Rat
  value : ConversationContext
deriving DecidableEq

/-- `KennySessionManager._cache_session` (kenny_session_manager.py
lines 114-121): a namespaced `setex` with the session snapshot, skipped when
Redis is not connected. -/
def cache_session (st : SMState) (s : ConversationContext) : List RedisWrite :=
  if st.redisConnected then
    [{ key := "kenny:session:" ++ s.session_id, ttl := st.session_timeout, value := s }]
  else []

/-- The turn dict of one `add_turn` call: `turn_number` is
`len(session.turns) + 1` at entry (kenny_session_manager.py line 102). -/
def newTurnData (session : ConversationContext) (um kr it : String) (cf nw : Rat) :
    TurnData :=
  { user_message := um, kenny_response := kr, intent_classified := it,
    intent_confidence := cf, timestamp := nw, turn_number := session.turns.length + 1 }

/-- The per-record core of `add_turn` (kenny_session_manager.py lines 96-110):
append the new turn dict, refresh last activity, and keep only the last 10
turns.  Returns the updated record and the turn dict that was appended. -/
def add_turn_core (session : ConversationContext) (um kr it : String) (cf nw : Rat) :
    ConversationContext × TurnData :=
  ({ session with
      turns :=
        if (session.turns ++ [newTurnData session um kr it cf nw]).length > 10 then
          lastN 10 (session.turns ++ [newTurnData session um kr it cf nw])
        else
          session.turns ++ [newTurnData session um kr it cf nw],
      last_activity := nw },
   newTurnData session um kr it cf nw)

/-- `KennySessionManager.add_turn` (kenny_session_manager.py lines 90-112):
a missing session id returns at once with no effect; otherwise the record is
updated in place and written through to Redis. -/
def add_turn (st : SMState) (session_id um kr it : String) (cf nw : Rat) :
    SMState × List RedisWrite :=
  match st.sessions.lookup session_id with
  | none => (st, [])
  | some session =>
    let session2 := (add_turn_core session um kr it cf nw).1
    ({ st with sessions := st.sessions.map fun p =>
        if p.1 == session_id then (p.1, session2) else p },
     cache_session st session2)

/-- A `conversations` row joined with its ordered `conversation_turns` rows,
as loaded from Supabase (kenny_session_manager.py lines 53-67; turns come
back ordered by `turn_number` ascending). -/
structure DbConvRow where
  created_at : Rat
  turns : List TurnData
  metadata : List (String × String)
deriving DecidableEq

/-- `KennySessionManager.get_or_create_session` (kenny_session_manager.py
lines 35-88).  Tier 1: any process-local entry is returned with its last
activity refreshed (the source performs no expiry check here).  Tier 2: a
Redis hit is deserialised and promoted as-is.  Tier 3: a Supabase row is
materialised; a full miss creates a fresh empty record.  `redisCached` and
`dbRow` are the oracle answers of the two slower tiers. -/
def get_or_create_session (st : SMState) (session_id user_id : String) (now : Rat)
    (redisCached : Option ConversationContext) (dbRow : Option DbConvRow) :
    ConversationContext × SMState × List RedisWrite :=
  match st.sessions.lookup session_id with
  | some session =>
    let session2 := { session with last_activity := now }
    (session2,
     { st with sessions := st.sessions.map fun p =>
         if p.1 == session_id then (p.1, session2) else p },
     [])
  | none =>
    match (if st.redisConnected then redisCached else none) with
    | some session =>
      (session, { st with sessions := st.sessions ++ [(session_id, session)] }, [])
    | none =>
      let session : ConversationContext :=
        match dbRow with
        | some row =>
          { session_id := session_id, user_id := user_id, turns := row.turns,
            created_at := row.created_at, last_activity := now, metadata := row.metadata }
        | none =>
          { session_id := session_id, user_id := user_id, turns := [],
            created_at := now, last_activity := now, metadata := [] }
      (session, { st with sessions := st.sessions ++ [(session_id, session)] },
       cache_session st session)

/-- The inputs of one `add_turn` call (message pair, classification, clock). -/
structure AppendInput where
  user_message : String
  kenny_response : String
  intent : String
  confidence : Rat
  now : Rat
deriving DecidableEq

/-- Run a sequence of appends against one record; also returns the list of
turn dicts created, in order. -/
def runAppends : ConversationContext → List AppendInput → ConversationContext × List TurnData
  | ctx, [] => (ctx, [])
  | ctx, i :: is =>
    ((runAppends (add_turn_core ctx i.user_message i.kenny_response i.intent i.confidence i.now).1 is).1,
     (add_turn_core ctx i.user_message i.kenny_response i.intent i.confidence i.now).2
       :: (runAppends (add_turn_core ctx i.user_message i.kenny_response i.intent i.confidence i.now).1 is).2)

/-- Run a sequence of `add_turn` calls against the manager state. -/
def runAddTurns (st : SMState) (sid : String) (inputs : List AppendInput) : SMState :=
  inputs.foldl (fun s i =>
    (add_turn s sid i.user_message i.kenny_response i.intent i.confidence i.now).1) st

/-! ### Concrete instances used by individual claims -/

/-- A manager state holding one session with no turns (used for C1). -/
def stC1 : SMState :=
  { sessions := [("s1",
      { session_id := "s1", user_id := "u", turns := [], created_at := 0,
        last_activity := 0, metadata := [] })],
    session_timeout := 3600, redisConnected := false }

/-- Twelve identical appends (used for C1). -/
def inputsC1 : List AppendInput :=
  List.replicate 12
    { user_message := "m", kenny_response := "r", intent := "i", confidence := 1, now := 0 }

/-- A nonempty request body (used for the C2 witness). -/
def bodyC2 : Body :=
  { messages := [{ content := some "hi" }],
    user := { id := none, email := none, name := none } }

/-- A request body with an empty message list (used for the C2 counterexample). -/
def emptyBody : Body :=
  { messages := [], user := { id := none, email := none, name := none } }

/-- A pipeline cache holding one session with empty history (used for C3). -/
def cacheC3 : Cache :=
  [("s1", { user_id := "u", created_at := 0, last_activity := 0, conversation_history := [] })]

/-- The process-local record of the C4 scenario: long idle, distinctive owner. -/
def ctxMemC4 : ConversationContext :=
  { session_id := "s1", user_id := "memory-user", turns := [], created_at := 0,
    last_activity := 0, metadata := [] }

/-- A competing Redis-cached record with a different owner (used for C4). -/
def ctxRedisC4 : ConversationContext :=
  { session_id := "s1", user_id := "redis-user", turns := [], created_at := 0,
    last_activity := 0, metadata := [] }

/-- Manager state holding the stale record (used for C4). -/
def stC4 : SMState :=
  { sessions := [("s1", ctxMemC4)], session_timeout := 3600, redisConnected := true }

/-- The request body of end-to-end scenario A (used for C5). -/
def bodyC5 : Body :=
  { messages := [{ content := some "What\x27s on my calendar today?" }],
    user := { id := some "u1", email := none, name := none } }

/-- The successful workflow response of scenario A (used for C5). -/
def jsonC5 : JsonBody :=
  { response := some "You have 2 meetings.", intent := some "calendar_query",
    confidence := some (92/100), fallbackTruthy := false }

/-- The network outcome of scenario A (used for C5). -/
def netC5 : NetOutcome := .httpResponse 200 (.parsed jsonC5)

/-- A nonempty request body (used for the C6 witness). -/
def bodyC6 : Body :=
  { messages := [{ content := some "hello" }],
    user := { id := some "u6", email := none, name := none } }

/-- A session with seven stored history entries (used for C9). -/
def sdC9 : SessionData :=
  { user_id := "u9", created_at := 0, last_activity := 0,
    conversation_history := List.replicate 7
      { user_message := "q", kenny_response := "a", intent := "i",
        confidence := 0, timestamp := 0 } }

/-- A pipeline cache holding that session (used for C9). -/
def cacheC9 : Cache := [("s9", sdC9)]

/-- A manager state holding an unrelated session (used for C10). -/
def stC10 : SMState :=
  { sessions := [("s1",
      { session_id := "s1", user_id := "u", turns := [], created_at := 0,
        last_activity := 0, metadata := [] })],
    session_timeout := 3600, redisConnected := true }

/-- A record at creation time, with no turns (used for the C7 witness). -/
def ctxC7 : ConversationContext :=
  { session_id := "c7", user_id := "u", turns := [], created_at := 0,
    last_activity := 0, metadata := [] }

/-- Three identical appends (used for the C7 witness). -/
def inputsC7 : List AppendInput :=
  List.replicate 3
    { user_message := "x", kenny_response := "y", intent := "z", confidence := 0, now := 0 }

/-! ### Helper lemmas -/

theorem lastN_of_le {l : List α} {n : Nat} (h : l.length ≤ n) : lastN n l = l := by
  unfold lastN
  have h0 : l.length - n = 0 := by omega
  rw [h0, List.drop_zero]

theorem lastN_length (n : Nat) (l : List α) : (lastN n l).length = min l.length n := by
  unfold lastN
  rw [List.length_drop]
  omega

theorem lastN_lastN (n : Nat) (l : List α) : lastN n (lastN n l) = lastN n l :=
  lastN_of_le (by rw [lastN_length]; omega)

theorem lastN_append_left_lastN (n : Nat) (l r : List α) :
    lastN n (lastN n l ++ r) = lastN n (l ++ r) := by
  unfold lastN
  rw [List.drop_append_eq_append_drop, List.drop_append_eq_append_drop, List.drop_drop,
    List.length_append, List.length_append, List.length_drop]
  congr 1
  · congr 1
    omega
  · congr 1
    omega

theorem lookup_map_update [BEq α] [LawfulBEq α] (c : List (α × β)) (k : α) (f : β → β)
    (v : β) (h : c.lookup k = some v) :
    (c.map fun p => if p.1 == k then (p.1, f p.2) else p).lookup k = some (f v) := by
  induction c with
  | nil => simp at h
  | cons p t ih =>
    rcases p with ⟨a, b⟩
    by_cases he : a = k
    · subst he
      rw [List.lookup_cons_self] at h
      cases h
      simp
    · have hb : (a == k) = false := beq_false_of_ne he
      have hb2 : (k == a) = false := beq_false_of_ne (Ne.symm he)
      rw [List.lookup_cons, hb2] at h
      simp only [List.map_cons, hb, Bool.false_eq_true, if_false]
      rw [List.lookup_cons, hb2]
      exact ih h

theorem call_n8n_router_relayFails (v : Valves) (msg sid : String) (u : UserInfo)
    (cache : Cache) (now : Rat) (net : NetOutcome) (hf : relayFails net = true) :
    call_n8n_router v msg sid u cache now net = (.fallbackErr (relayErrMsg net), cache) := by
  cases net with
  | timeout => rfl
  | connError d => rfl
  | httpResponse status body =>
    by_cases hs : (status == 200) = true
    · cases body with
      | parsed b => simp [relayFails, hs] at hf
      | malformed d => simp [call_n8n_router, relayErrMsg, hs]
    · have hs2 : (status == 200) = false := by
        cases hv : (status == 200) <;> simp_all
      cases body <;> simp [call_n8n_router, relayErrMsg, hs2]

theorem streamEvents_fallback (v : Valves) (um : String) (r : RouterResult)
    (hr : r.getFallback = true) :
    streamEvents v um r =
      SSEEvent.content fallbackNotice
        :: ((fallbackChunks (fallbackResponseText um)).map SSEEvent.content
            ++ [SSEEvent.finish, SSEEvent.done]) := by
  simp [streamEvents, hr]

theorem streamEvents_shape (v : Valves) (um : String) (r : RouterResult) :
    streamEvents v um r =
      (streamEvents v um r).dropLast.dropLast ++ [SSEEvent.finish, SSEEvent.done]
    ∧ SSEEvent.finish ∉ (streamEvents v um r).dropLast.dropLast
    ∧ SSEEvent.done ∉ (streamEvents v um r).dropLast.dropLast := by
  have key : ∀ l : List SSEEvent,
      (l ++ [SSEEvent.finish, SSEEvent.done]).dropLast.dropLast = l := by
    intro l
    rw [show l ++ [SSEEvent.finish, SSEEvent.done]
          = (l ++ [SSEEvent.finish]) ++ [SSEEvent.done] by simp,
      List.dropLast_concat, List.dropLast_concat]
  by_cases hr : r.getFallback = true
  · rw [streamEvents_fallback v um r hr]
    rw [show SSEEvent.content fallbackNotice
          :: ((fallbackChunks (fallbackResponseText um)).map SSEEvent.content
              ++ [SSEEvent.finish, SSEEvent.done])
        = (SSEEvent.content fallbackNotice
            :: (fallbackChunks (fallbackResponseText um)).map SSEEvent.content)
          ++ [SSEEvent.finish, SSEEvent.done] by simp]
    rw [key]
    refine ⟨rfl, ?_, ?_⟩ <;> simp [List.mem_map]
  · have hr2 : r.getFallback = false := by
      cases hv : r.getFallback <;> simp_all
    have hse : streamEvents v um r =
        ((if v.debug_mode && r.getIntent != "unknown" then
            [SSEEvent.content (intentDiagnostic r.getIntent r.getConfidence)]
          else [])
          ++ (wordChunks (r.getResponse troubleDefault)).map SSEEvent.content)
          ++ [SSEEvent.finish, SSEEvent.done] := by
      simp [streamEvents, hr2, List.append_assoc]
    rw [hse, key]
    refine ⟨rfl, ?_, ?_⟩ <;>
      · rw [List.mem_append]
        rintro (h | h)
        · rcases v.debug_mode && r.getIntent != "unknown" with _ | _ <;> simp_all
        · simp [List.mem_map] at h

theorem add_turn_core_turns (ctx : ConversationContext) (um kr it : String) (cf nw : Rat) :
    (add_turn_core ctx um kr it cf nw).1.turns
      = lastN 10 (ctx.turns ++ [(add_turn_core ctx um kr it cf nw).2]) := by
  have h2 : (add_turn_core ctx um kr it cf nw).2 = newTurnData ctx um kr it cf nw := rfl
  rw [h2]
  show (if (ctx.turns ++ [newTurnData ctx um kr it cf nw]).length > 10 then
          lastN 10 (ctx.turns ++ [newTurnData ctx um kr it cf nw])
        else ctx.turns ++ [newTurnData ctx um kr it cf nw])
      = lastN 10 (ctx.turns ++ [newTurnData ctx um kr it cf nw])
  split
  · rfl
  · next hle =>
    exact (lastN_of_le (by omega)).symm

theorem runAppends_spec (inputs : List AppendInput) :
    ∀ ctx : ConversationContext, ctx.turns = lastN 10 ctx.turns →
      (runAppends ctx inputs).1.turns = lastN 10 (ctx.turns ++ (runAppends ctx inputs).2)
      ∧ (runAppends ctx inputs).2.length = inputs.length := by
  induction inputs with
  | nil =>
    intro ctx h
    refine ⟨?_, rfl⟩
    show ctx.turns = lastN 10 (ctx.turns ++ [])
    rw [List.append_nil]
    exact h
  | cons i is ih =>
    intro ctx h
    have hturns := add_turn_core_turns ctx i.user_message i.kenny_response i.intent
      i.confidence i.now
    have hinv : (add_turn_core ctx i.user_message i.kenny_response i.intent i.confidence
        i.now).1.turns
        = lastN 10 (add_turn_core ctx i.user_message i.kenny_response i.intent i.confidence
          i.now).1.turns := by
      rw [hturns, lastN_lastN]
    obtain ⟨ih1, ih2⟩ := ih _ hinv
    constructor
    · show (runAppends (add_turn_core ctx i.user_message i.kenny_response i.intent
          i.confidence i.now).1 is).1.turns = _
      rw [ih1, hturns, lastN_append_left_lastN]
      show _ = lastN 10 (ctx.turns ++ ((add_turn_core ctx i.user_message i.kenny_response
        i.intent i.confidence i.now).2 :: (runAppends (add_turn_core ctx i.user_message
          i.kenny_response i.intent i.confidence i.now).1 is).2))
      rw [List.append_assoc, List.singleton_append]
    · show ((add_turn_core ctx i.user_message i.kenny_response i.intent i.confidence
          i.now).2 :: (runAppends (add_turn_core ctx i.user_message i.kenny_response
          i.intent i.confidence i.now).1 is).2).length = is.length + 1
      rw [List.length_cons, ih2]

theorem updatedHistory_eq_lastN (hist : List HistoryEntry) :
    updatedHistory hist = lastN 10 hist := by
  unfold updatedHistory
  split
  · rfl
  · next h => exact (lastN_of_le (by omega)).symm

theorem isEmpty_false_of_ne_nil {l : List α} (hm : l ≠ []) : l.isEmpty = false := by
  cases hb : l with
  | nil => exact absurd hb hm
  | cons a t => rfl

theorem pipe_eq_streamEvents (v : Valves) (cache : Cache) (body : Body) (now : Rat)
    (fid : String) (net : NetOutcome) (hm : body.messages ≠ []) :
    pipe v cache body now fid net
      = (streamEvents v (userMessageOf body)
          (call_n8n_router v (userMessageOf body)
            (get_session_id v cache body.user now fid).1 body.user
            (get_session_id v cache body.user now fid).2 now net).1,
         (call_n8n_router v (userMessageOf body)
            (get_session_id v cache body.user now fid).1 body.user
            (get_session_id v cache body.user now fid).2 now net).2) := by
  have hne := isEmpty_false_of_ne_nil hm
  simp [pipe, hne]

theorem pipe_events_relayFails (v : Valves) (cache : Cache) (body : Body) (now : Rat)
    (fid : String) (net : NetOutcome) (hm : body.messages ≠ []) (hf : relayFails net = true) :
    (pipe v cache body now fid net).1
      = SSEEvent.content fallbackNotice
        :: ((fallbackChunks (fallbackResponseText (userMessageOf body))).map SSEEvent.content
            ++ [SSEEvent.finish, SSEEvent.done]) := by
  rw [pipe_eq_streamEvents v cache body now fid net hm]
  rw [show (call_n8n_router v (userMessageOf body)
        (get_session_id v cache body.user now fid).1 body.user
        (get_session_id v cache body.user now fid).2 now net)
      = (RouterResult.fallbackErr (relayErrMsg net),
         (get_session_id v cache body.user now fid).2) from
    call_n8n_router_relayFails v (userMessageOf body)
      (get_session_id v cache body.user now fid).1 body.user
      (get_session_id v cache body.user now fid).2 now net hf]
  exact streamEvents_fallback v (userMessageOf body)
    (RouterResult.fallbackErr (relayErrMsg net)) rfl

/-! ### Claim theorems -/

/-- C1: the claim says turn numbers assigned by `add_turn` are exactly 1..N,
strictly increasing even after truncation to 10 entries.  The code computes
`turn_number = len(session.turns) + 1` after the list has been capped at 10,
so after twelve appends to a fresh session the retained turns carry the
numbers 3,4,5,6,7,8,9,10,11,11 — the 11th and 12th appends were both
assigned number 11, which is not strictly increasing. -/
theorem C1_duplicate_turn_numbers :
    ((runAddTurns stC1 "s1" inputsC1).sessions.lookup "s1").map
        (fun c => c.turns.map TurnData.turn_number)
      = some [3, 4, 5, 6, 7, 8, 9, 10, 11, 11]
    ∧ ¬ List.Pairwise (fun a b => a < b) [3, 4, 5, 6, 7, 8, 9, 10, 11, 11] :=
  ⟨by decide, by decide⟩

/-- C7: starting from a record with no turns, after any sequence of N appends
the retained turn sequence is the last 10 of the turns created (most recent,
in insertion order), every create is accounted for, and its length is
`min N 10`. -/
theorem C7_retention_window (ctx : ConversationContext) (inputs : List AppendInput)
    (h : ctx.turns = []) :
    (runAppends ctx inputs).1.turns = lastN 10 (runAppends ctx inputs).2
    ∧ (runAppends ctx inputs).2.length = inputs.length
    ∧ (runAppends ctx inputs).1.turns.length = min inputs.length 10 := by
  obtain ⟨h1, h2⟩ := runAppends_spec inputs ctx (by rw [h]; rfl)
  refine ⟨?_, h2, ?_⟩
  · rw [h1, h, List.nil_append]
  · rw [h1, h, List.nil_append, lastN_length, h2]

/-- C7 witness: three appends to a fresh record keep all three turns. -/
theorem C7_retention_window_witness :
    (runAppends ctxC7 inputsC7).1.turns = lastN 10 (runAppends ctxC7 inputsC7).2
    ∧ (runAppends ctxC7 inputsC7).2.length = inputsC7.length
    ∧ (runAppends ctxC7 inputsC7).1.turns.length = min inputsC7.length 10 :=
  C7_retention_window ctxC7 inputsC7 rfl

/-- C10: `add_turn` on a session id absent from the process-local map is a
complete no-op — it returns the state unchanged and issues no Redis write. -/
theorem C10_absent_session_noop (st : SMState) (sid um kr it : String) (cf nw : Rat)
    (h : st.sessions.lookup sid = none) :
    add_turn st sid um kr it cf nw = (st, []) := by
  unfold add_turn
  rw [h]

/-- C10 witness: a concrete state with one session is untouched by an
`add_turn` for a different id. -/
theorem C10_absent_session_noop_witness :
    add_turn stC10 "missing" "u" "k" "i" 0 0 = (stC10, []) :=
  C10_absent_session_noop stC10 "missing" "u" "k" "i" 0 0 (by decide)

/-- C2 counterexample: for the body whose messages list is empty, `pipe`
yields a single error event and returns immediately — the stream does not
end with (indeed never contains) the `[DONE]` sentinel, refuting the claim
that every input body produces a sentinel-terminated stream. -/
theorem C2_empty_messages_no_sentinel :
    (pipe defaultValves [] emptyBody 0 "sid" NetOutcome.timeout).1
      = [SSEEvent.error "No messages provided"]
    ∧ SSEEvent.done ∉ (pipe defaultValves [] emptyBody 0 "sid" NetOutcome.timeout).1 :=
  ⟨rfl, by decide⟩

/-- C2 (amended): for every body with a nonempty messages list, the stream is
finite and equals a prefix (free of finish and sentinel events) followed by
exactly one finish chunk and then the sentinel; the unexpected-exception
handler likewise emits one error event and then the sentinel; and the
sentinel renders as the literal line `data: [DONE]\n\n`.  (The empty-messages
body is the exception the counterexample exhibits.) -/
theorem C2_stream_terminated (v : Valves) (cache : Cache) (body : Body) (now : Rat)
    (fid : String) (net : NetOutcome) (d : String) (hm : body.messages ≠ []) :
    (pipe v cache body now fid net).1
      = (pipe v cache body now fid net).1.dropLast.dropLast
          ++ [SSEEvent.finish, SSEEvent.done]
    ∧ SSEEvent.finish ∉ (pipe v cache body now fid net).1.dropLast.dropLast
    ∧ SSEEvent.done ∉ (pipe v cache body now fid net).1.dropLast.dropLast
    ∧ pipe_exception d = [SSEEvent.error ("Pipeline error: " ++ d), SSEEvent.done]
    ∧ render SSEEvent.done = "data: [DONE]\n\n" := by
  have hp := pipe_eq_streamEvents v cache body now fid net hm
  have hp1 : (pipe v cache body now fid net).1
      = streamEvents v (userMessageOf body)
          (call_n8n_router v (userMessageOf body)
            (get_session_id v cache body.user now fid).1 body.user
            (get_session_id v cache body.user now fid).2 now net).1 := by
    rw [hp]
  rw [hp1]
  obtain ⟨s1, s2, s3⟩ := streamEvents_shape v (userMessageOf body)
    (call_n8n_router v (userMessageOf body)
      (get_session_id v cache body.user now fid).1 body.user
      (get_session_id v cache body.user now fid).2 now net).1
  exact ⟨s1, s2, s3, rfl, rfl⟩

/-- C2 witness: the amended statement at a concrete nonempty body, timeout
outcome and exception detail. -/
theorem C2_stream_terminated_witness :
    (pipe defaultValves [] bodyC2 0 "s" NetOutcome.timeout).1
      = (pipe defaultValves [] bodyC2 0 "s" NetOutcome.timeout).1.dropLast.dropLast
          ++ [SSEEvent.finish, SSEEvent.done]
    ∧ SSEEvent.finish ∉ (pipe defaultValves [] bodyC2 0 "s" NetOutcome.timeout).1.dropLast.dropLast
    ∧ SSEEvent.done ∉ (pipe defaultValves [] bodyC2 0 "s" NetOutcome.timeout).1.dropLast.dropLast
    ∧ pipe_exception "boom" = [SSEEvent.error ("Pipeline error: " ++ "boom"), SSEEvent.done]
    ∧ render SSEEvent.done = "data: [DONE]\n\n" :=
  C2_stream_terminated defaultValves [] bodyC2 0 "s" NetOutcome.timeout "boom" (by decide)

/-- C4 counterexample: the process-local record of `stC4` is long expired
(idle 1000000 > timeout 3600), yet `get_or_create_session` returns exactly
that record from step 1 (its owner is the distinctive `memory-user`, not the
`redis-user` of the competing cached copy), refuting the claim that an
expired process-local entry is not returned from step 1. -/
theorem C4_expired_entry_still_returned :
    (1000000 : Rat) - ctxMemC4.last_activity > stC4.session_timeout
    ∧ (get_or_create_session stC4 "s1" "u" 1000000 (some ctxRedisC4) none).1.user_id
        = "memory-user"
    ∧ (get_or_create_session stC4 "s1" "u" 1000000 (some ctxRedisC4) none).1.last_activity
        = 1000000 := by
  refine ⟨?_, rfl, rfl⟩
  show (1000000 : Rat) - 0 > 3600
  norm_num

/-- C4 (amended): whenever the session id is present in the process-local
map, `get_or_create_session` returns that entry with its last-activity
refreshed — regardless of how long it has been idle — and never consults the
slower tiers; process-local expiry is enforced only by the separate
`cleanup_sessions` sweep. -/
theorem C4_memory_hit_ignores_expiry (st : SMState) (sid uid : String) (now : Rat)
    (rc : Option ConversationContext) (db : Option DbConvRow) (s : ConversationContext)
    (h : st.sessions.lookup sid = some s) :
    (get_or_create_session st sid uid now rc db).1 = { s with last_activity := now }
    ∧ (get_or_create_session st sid uid now rc db).2.1.sessions.lookup sid
        = some { s with last_activity := now }
    ∧ (get_or_create_session st sid uid now rc db).2.2 = [] := by
  have hg : get_or_create_session st sid uid now rc db
      = ({ s with last_activity := now },
         { st with sessions := st.sessions.map fun p =>
             if p.1 == sid then (p.1, { s with last_activity := now }) else p },
         []) := by
    simp [get_or_create_session, h]
  rw [hg]
  refine ⟨rfl, ?_, rfl⟩
  simpa using lookup_map_update st.sessions sid (fun _ => { s with last_activity := now }) s h

/-- C4 witness: the amended statement at the concrete stale state. -/
theorem C4_memory_hit_ignores_expiry_witness :
    (get_or_create_session stC4 "s1" "u" 7 none none).1
        = { ctxMemC4 with last_activity := 7 }
    ∧ (get_or_create_session stC4 "s1" "u" 7 none none).2.1.sessions.lookup "s1"
        = some { ctxMemC4 with last_activity := 7 }
    ∧ (get_or_create_session stC4 "s1" "u" 7 none none).2.2 = [] :=
  C4_memory_hit_ignores_expiry stC4 "s1" "u" 7 none none ctxMemC4 rfl

/-- C3 counterexample: a timeout outcome leaves the session history
untouched — zero turns are appended, not one fallback turn with intent
`unknown` and confidence 0, refuting the claim that every relay outcome
appends exactly one turn. -/
theorem C3_timeout_appends_nothing :
    (call_n8n_router defaultValves "hi" "s1"
        { id := some "u", email := none, name := none } cacheC3 5 NetOutcome.timeout).1
      = RouterResult.fallbackErr "Kenny router timeout"
    ∧ (call_n8n_router defaultValves "hi" "s1"
        { id := some "u", email := none, name := none } cacheC3 5 NetOutcome.timeout).2
      = cacheC3
    ∧ ((call_n8n_router defaultValves "hi" "s1"
        { id := some "u", email := none, name := none } cacheC3 5 NetOutcome.timeout).2.lookup
          "s1").map (fun sd => sd.conversation_history.length)
      = some 0 :=
  ⟨rfl, rfl, rfl⟩

/-- C3 (amended): only a successful relay outcome (HTTP 200 with a parseable
body) appends a turn to the session history — exactly one, with intent and
confidence defaulting to `unknown` and 0 when the response body lacks them,
subject to the 10-entry retention cap; on every failing outcome (timeout,
raised exception, non-200 status, unparseable body) the cache is returned
unchanged and no turn is appended. -/
theorem C3_turn_only_on_success (v : Valves) (msg sid : String) (u : UserInfo)
    (cache : Cache) (now : Rat) (net : NetOutcome) (b : JsonBody) (sd : SessionData)
    (hf : relayFails net = true) (hs : cache.lookup sid = some sd) :
    call_n8n_router v msg sid u cache now net
      = (RouterResult.fallbackErr (relayErrMsg net), cache)
    ∧ (call_n8n_router v msg sid u cache now
          (NetOutcome.httpResponse 200 (BodyParse.parsed b))).2.lookup sid
      = some { sd with
               conversation_history :=
                 lastN 10 (sd.conversation_history ++ [newHistoryEntry msg b now]) }
    ∧ (newHistoryEntry msg b now).intent = b.intent.getD "unknown"
    ∧ (newHistoryEntry msg b now).confidence = b.confidence.getD 0
    ∧ (lastN 10 (sd.conversation_history ++ [newHistoryEntry msg b now])).length
      = min (sd.conversation_history.length + 1) 10 := by
  have hsome : (cache.lookup sid).isSome = true := by rw [hs]; rfl
  refine ⟨call_n8n_router_relayFails v msg sid u cache now net hf, ?_, rfl, rfl, ?_⟩
  · have hc2 : (call_n8n_router v msg sid u cache now
        (NetOutcome.httpResponse 200 (BodyParse.parsed b))).2
        = cache.map fun p =>
            if p.1 == sid then
              (p.1, { p.2 with conversation_history :=
                  updatedHistory (p.2.conversation_history ++ [newHistoryEntry msg b now]) })
            else p := by
      simp [call_n8n_router, hsome]
    rw [hc2, ← updatedHistory_eq_lastN]
    simpa using lookup_map_update cache sid
      (fun x => { x with
                  conversation_history :=
                    updatedHistory (x.conversation_history ++ [newHistoryEntry msg b now]) })
      sd hs
  · rw [lastN_length, List.length_append, List.length_singleton]

/-- C3 witness: the amended statement at a concrete one-session cache, a
failing timeout outcome and a success body with no intent or confidence. -/
theorem C3_turn_only_on_success_witness :
    call_n8n_router defaultValves "hi" "s1"
        { id := some "u", email := none, name := none } cacheC3 5 NetOutcome.timeout
      = (RouterResult.fallbackErr (relayErrMsg NetOutcome.timeout), cacheC3)
    ∧ (call_n8n_router defaultValves "hi" "s1"
          { id := some "u", email := none, name := none } cacheC3 5
          (NetOutcome.httpResponse 200 (BodyParse.parsed
            { response := some "ok", intent := none, confidence := none }))).2.lookup "s1"
      = some { user_id := "u", created_at := 0, last_activity := 0,
               conversation_history :=
                 lastN 10 ([] ++ [newHistoryEntry "hi"
                   { response := some "ok", intent := none, confidence := none } 5]) }
    ∧ (newHistoryEntry "hi"
          { response := some "ok", intent := none, confidence := none } 5).intent
      = Option.getD none "unknown"
    ∧ (newHistoryEntry "hi"
          { response := some "ok", intent := none, confidence := none } 5).confidence
      = Option.getD none 0
    ∧ (lastN 10 ([] ++ [newHistoryEntry "hi"
          { response := some "ok", intent := none, confidence := none } 5])).length
      = min (List.length ([] : List HistoryEntry) + 1) 10 :=
  C3_turn_only_on_success defaultValves "hi" "s1"
    { id := some "u", email := none, name := none } cacheC3 5 NetOutcome.timeout
    { response := some "ok", intent := none, confidence := none }
    { user_id := "u", created_at := 0, last_activity := 0, conversation_history := [] }
    rfl rfl

/-- C8: `call_n8n_router` consumes exactly the first element of any trace of
potential network attempts (a single `requests.post`, no retries), and every
failure is classified into a returned fallback value rather than a
propagated exception: timeout becomes the timeout fallback, a raised
transport exception and an unparseable 200 body become error fallbacks
carrying the detail, and a non-success status becomes an error fallback
naming the status; the cache is untouched in every such case. -/
theorem C8_single_attempt_classification (v : Valves) (msg sid : String) (u : UserInfo)
    (cache : Cache) (now : Rat) (net : Nat → NetOutcome) (d1 d2 : String) (s : Nat)
    (b : BodyParse) (hs : s ≠ 200) :
    call_n8n_router_once v msg sid u cache now net
      = call_n8n_router v msg sid u cache now (net 0)
    ∧ call_n8n_router v msg sid u cache now NetOutcome.timeout
      = (RouterResult.fallbackErr "Kenny router timeout", cache)
    ∧ call_n8n_router v msg sid u cache now (NetOutcome.connError d1)
      = (RouterResult.fallbackErr ("Kenny router error: " ++ d1), cache)
    ∧ call_n8n_router v msg sid u cache now (NetOutcome.httpResponse s b)
      = (RouterResult.fallbackErr ("n8n router failed: " ++ toString s), cache)
    ∧ call_n8n_router v msg sid u cache now
        (NetOutcome.httpResponse 200 (BodyParse.malformed d2))
      = (RouterResult.fallbackErr ("Kenny router error: " ++ d2), cache) := by
  refine ⟨rfl, rfl, rfl, ?_, rfl⟩
  have hs2 : (s == 200) = false := by simp [hs]
  cases b <;> simp [call_n8n_router, hs2]

/-- C8 witness: the statement at a concrete 404 response. -/
theorem C8_single_attempt_classification_witness :
    call_n8n_router_once defaultValves "m" "s"
        { id := none, email := none, name := none } [] 0 (fun _ => NetOutcome.timeout)
      = call_n8n_router defaultValves "m" "s"
          { id := none, email := none, name := none } [] 0 NetOutcome.timeout
    ∧ call_n8n_router defaultValves "m" "s"
        { id := none, email := none, name := none } [] 0 NetOutcome.timeout
      = (RouterResult.fallbackErr "Kenny router timeout", [])
    ∧ call_n8n_router defaultValves "m" "s"
        { id := none, email := none, name := none } [] 0 (NetOutcome.connError "refused")
      = (RouterResult.fallbackErr ("Kenny router error: " ++ "refused"), [])
    ∧ call_n8n_router defaultValves "m" "s"
        { id := none, email := none, name := none } [] 0
        (NetOutcome.httpResponse 404 (BodyParse.malformed "x"))
      = (RouterResult.fallbackErr ("n8n router failed: " ++ toString 404), [])
    ∧ call_n8n_router defaultValves "m" "s"
        { id := none, email := none, name := none } [] 0
        (NetOutcome.httpResponse 200 (BodyParse.malformed "bad json"))
      = (RouterResult.fallbackErr ("Kenny router error: " ++ "bad json"), []) :=
  C8_single_attempt_classification defaultValves "m" "s"
    { id := none, email := none, name := none } [] 0 (fun _ => NetOutcome.timeout)
    "refused" "bad json" 404 (BodyParse.malformed "x") (by decide)

/-- C5: scenario A — new session, debug enabled, successful workflow call
with response `You have 2 meetings.`, intent `calendar_query`, confidence
0.92.  The stream is one diagnostic chunk whose text contains
`calendar_query` and the rendered percentage `92.0%`, then word chunks whose
concatenation is exactly `You have 2 meetings.`, then the finish chunk and
the sentinel. -/
theorem C5_scenario_a_stream :
    (pipe defaultValves [] bodyC5 100 "sid-1" netC5).1
      = [SSEEvent.content "🎯 Intent: calendar_query (92.0%)\\n\\n",
         SSEEvent.content "You ", SSEEvent.content "have ", SSEEvent.content "2 ",
         SSEEvent.content "meetings.", SSEEvent.finish, SSEEvent.done]
    ∧ strIncludes "🎯 Intent: calendar_query (92.0%)\\n\\n" "calendar_query"
    ∧ strIncludes "🎯 Intent: calendar_query (92.0%)\\n\\n" "92.0%"
    ∧ String.join ((contentTexts (pipe defaultValves [] bodyC5 100 "sid-1" netC5).1).drop 1)
      = "You have 2 meetings." := by
  have h920 : round ((92 : Rat)/100 * 1000) = 920 := by
    rw [round_eq]
    norm_num
  have hfmt : formatPercent1 ((92 : Rat)/100) = "92.0%" := by
    unfold formatPercent1
    rw [h920]
    decide
  have hdiag : intentDiagnostic "calendar_query" ((92 : Rat)/100)
      = "🎯 Intent: calendar_query (92.0%)\\n\\n" := by
    unfold intentDiagnostic
    rw [hfmt]
    decide
  have hpipe : (pipe defaultValves [] bodyC5 100 "sid-1" netC5).1
      = [SSEEvent.content (intentDiagnostic "calendar_query" ((92 : Rat)/100)),
         SSEEvent.content "You ", SSEEvent.content "have ", SSEEvent.content "2 ",
         SSEEvent.content "meetings.", SSEEvent.finish, SSEEvent.done] := rfl
  refine ⟨?_, ?_, ?_, ?_⟩
  · rw [hpipe, hdiag]
  · exact ⟨"🎯 Intent: ".data, " (92.0%)\\n\\n".data, by decide⟩
  · exact ⟨"🎯 Intent: calendar_query (".data, ")\\n\\n".data, by decide⟩
  · have hct : (contentTexts (pipe defaultValves [] bodyC5 100 "sid-1" netC5).1).drop 1
        = ["You ", "have ", "2 ", "meetings."] := by
      rw [hpipe]
      rfl
    rw [hct]
    decide

/-- C6: for every failing relay outcome the stream is exactly the
degraded-mode notice followed by the locally synthesized fallback message
streamed word-by-word (then finish and sentinel); the fallback text contains
the literal user message and the phrase `advanced features are currently
unavailable`; and the stream is identical for every failing outcome — it
depends only on the user message, so no text received from the upstream
workflow can appear in any chunk. -/
theorem C6_fallback_stream_local_only (v : Valves) (cache : Cache) (body : Body)
    (now : Rat) (fid : String) (net net2 : NetOutcome) (hm : body.messages ≠ [])
    (hf : relayFails net = true) (hf2 : relayFails net2 = true) :
    (pipe v cache body now fid net).1
      = SSEEvent.content fallbackNotice
        :: ((fallbackChunks (fallbackResponseText (userMessageOf body))).map SSEEvent.content
            ++ [SSEEvent.finish, SSEEvent.done])
    ∧ strIncludes (fallbackResponseText (userMessageOf body)) (userMessageOf body)
    ∧ strIncludes (fallbackResponseText (userMessageOf body))
        "advanced features are currently unavailable"
    ∧ (pipe v cache body now fid net).1 = (pipe v cache body now fid net2).1 := by
  refine ⟨pipe_events_relayFails v cache body now fid net hm hf, ?_, ?_, ?_⟩
  · refine ⟨"I received your message: \x27".data,
      "\x27, but Kenny\x27s advanced features are currently unavailable. Please check that all services are running.".data, ?_⟩
    unfold fallbackResponseText
    rw [String.data_append, String.data_append]
  · have hq : ("\x27, but Kenny\x27s advanced features are currently unavailable. Please check that all services are running." : String).data
        = ("\x27, but Kenny\x27s " : String).data
          ++ ("advanced features are currently unavailable" : String).data
          ++ (". Please check that all services are running." : String).data := by
      decide
    refine ⟨"I received your message: \x27".data ++ (userMessageOf body).data
        ++ ("\x27, but Kenny\x27s " : String).data,
      (". Please check that all services are running." : String).data, ?_⟩
    unfold fallbackResponseText
    rw [String.data_append, String.data_append, hq]
    simp [List.append_assoc]
  · rw [pipe_events_relayFails v cache body now fid net hm hf,
      pipe_events_relayFails v cache body now fid net2 hm hf2]

/-- C6 witness: the statement at a concrete body, with a timeout and a
connection error as the two failing outcomes. -/
theorem C6_fallback_stream_local_only_witness :
    (pipe defaultValves [] bodyC6 0 "s" NetOutcome.timeout).1
      = SSEEvent.content fallbackNotice
        :: ((fallbackChunks (fallbackResponseText (userMessageOf bodyC6))).map SSEEvent.content
            ++ [SSEEvent.finish, SSEEvent.done])
    ∧ strIncludes (fallbackResponseText (userMessageOf bodyC6)) (userMessageOf bodyC6)
    ∧ strIncludes (fallbackResponseText (userMessageOf bodyC6))
        "advanced features are currently unavailable"
    ∧ (pipe defaultValves [] bodyC6 0 "s" NetOutcome.timeout).1
      = (pipe defaultValves [] bodyC6 0 "s" (NetOutcome.connError "refused")).1 :=
  C6_fallback_stream_local_only defaultValves [] bodyC6 0 "s" NetOutcome.timeout
    (NetOutcome.connError "refused") (by decide) rfl rfl

/-- C9: the request payload built for the outbound call carries the turn
text, session id, caller identity (with the source defaults), the wall-clock
timestamp, and a conversation history equal to the last `min(H,5)` stored
turns in order with the most recent last — the trailing segment of the
stored history. -/
theorem C9_payload_last_five (cache : Cache) (msg sid : String) (u : UserInfo)
    (now : Rat) (sd : SessionData) (h : cache.lookup sid = some sd) :
    (build_payload cache msg sid u now).message = msg
    ∧ (build_payload cache msg sid u now).session_id = sid
    ∧ (build_payload cache msg sid u now).user_id = u.id.getD "anonymous"
    ∧ (build_payload cache msg sid u now).user_email = u.email.getD ""
    ∧ (build_payload cache msg sid u now).user_name = u.name.getD "User"
    ∧ (build_payload cache msg sid u now).timestamp = now
    ∧ (build_payload cache msg sid u now).conversation_history
      = lastN 5 sd.conversation_history
    ∧ (build_payload cache msg sid u now).conversation_history.length
      = min sd.conversation_history.length 5
    ∧ sd.conversation_history
      = sd.conversation_history.take (sd.conversation_history.length - 5)
        ++ (build_payload cache msg sid u now).conversation_history := by
  have hh : (build_payload cache msg sid u now).conversation_history
      = lastN 5 sd.conversation_history := by
    simp [build_payload, h]
  refine ⟨rfl, rfl, rfl, rfl, rfl, rfl, hh, ?_, ?_⟩
  · rw [hh, lastN_length]
  · rw [hh]
    unfold lastN
    exact (List.take_append_drop _ _).symm

/-- C9 witness: the payload built over a seven-entry history is the last
five entries. -/
theorem C9_payload_last_five_witness :
    (build_payload cacheC9 "msg" "s9" { id := some "u9", email := none, name := none } 3).message
      = "msg"
    ∧ (build_payload cacheC9 "msg" "s9" { id := some "u9", email := none, name := none } 3).session_id
      = "s9"
    ∧ (build_payload cacheC9 "msg" "s9" { id := some "u9", email := none, name := none } 3).user_id
      = Option.getD (some "u9") "anonymous"
    ∧ (build_payload cacheC9 "msg" "s9" { id := some "u9", email := none, name := none } 3).user_email
      = Option.getD none ""
    ∧ (build_payload cacheC9 "msg" "s9" { id := some "u9", email := none, name := none } 3).user_name
      = Option.getD none "User"
    ∧ (build_payload cacheC9 "msg" "s9" { id := some "u9", email := none, name := none } 3).timestamp
      = 3
    ∧ (build_payload cacheC9 "msg" "s9" { id := some "u9", email := none, name := none } 3).conversation_history
      = lastN 5 sdC9.conversation_history
    ∧ (build_payload cacheC9 "msg" "s9" { id := some "u9", email := none, name := none } 3).conversation_history.length
      = min sdC9.conversation_history.length 5
    ∧ sdC9.conversation_history
      = sdC9.conversation_history.take (sdC9.conversation_history.length - 5)
        ++ (build_payload cacheC9 "msg" "s9" { id := some "u9", email := none, name := none } 3).conversation_history :=
  C9_payload_last_five cacheC9 "msg" "s9" { id := some "u9", email := none, name := none } 3
    sdC9 rfl
